import Mathlib

/-!
# Verification of the Sigma-patrol orchestration core

Shallow embedding of the patrol orchestration, inspection worker, relay
manager and live-alert monitor of the Sigma-patrol repository
(`src/backend/patrol_service.py`, `src/backend/relay_manager.py`,
`src/backend/live_monitor.py`, `src/backend/ai_service.py`), together with
theorems settling the frozen claims about them.

Modelling conventions:
* Each Python function is translated into an executable Lean function over
  explicit state; collaborator behaviour (robot moves, camera captures, AI
  calls, file renames) is supplied through oracle fields of an environment
  record, mirroring the exact branch structure of the source.
* The mission thread (`_patrol_logic`) is modelled as a function producing a
  trace of observable events (status updates, DB writes, subprocess
  stops, ...).  Effects of the background inspection worker are linearised at
  the `queue.join()` barrier, which is exactly the synchronisation point the
  source relies on.
* SQLite is modelled as a reliable store for the row-level writes whose
  failure the source merely logs (`_save_inspection` carries an explicit
  per-write success oracle because the worker claims quantify over it);
  the `patrol_runs` INSERT carries its own success flag because the source
  aborts the mission on its failure (status "Error: Database Error").
* Machine integers do not occur: all counters are small `Nat`s.
-/

/-! ## Data model -/

/-- A patrol point as read from `points.json` (`PatrolPoint` in the spec):
name, coordinates, inspection prompt and enabled flag. -/
structure PatrolPoint where
  name : String
  x : Int
  y : Int
  prompt : String
  enabled : Bool
deriving DecidableEq

/-- The normalised parse of an AI response, mirroring the dict returned by
`parse_ai_response` in `src/backend/ai_service.py` (lines 79-87). -/
structure ParsedResponse where
  result_text : String
  is_ng : Bool
  description : String
  input_tokens : Nat
  output_tokens : Nat
  total_tokens : Nat
  usage_json : String
deriving DecidableEq

/-- The `result` part of an AI service response: either a dict with keys
`is_NG` / `Description` (structured inspection output) or a plain string. -/
inductive ResultData where
  | dictData (is_NG : Bool) (desc : String)
  | strData (s : String)
deriving DecidableEq

/-- An AI service response object as consumed by `parse_ai_response`:
`None`, a dict with `result` and `usage` keys (tokens plus the serialised
usage json), or bare result data. -/
inductive AIResponse where
  | noResponse
  | wrapped (data : ResultData) (promptTok candTok totalTok : Nat) (usageJson : String)
  | bare (data : ResultData)
deriving DecidableEq

/-- Kernel-computable model of Python `str.replace` (non-overlapping,
left to right), on character lists with a fuel bound. -/
def replaceChars (pat rep : List Char) : Nat → List Char → List Char
  | 0, l => l
  | _ + 1, [] => []
  | fuel + 1, c :: rest =>
      if pat.isPrefixOf (c :: rest) then
        rep ++ replaceChars pat rep fuel (List.drop (pat.length - 1) rest)
      else
        c :: replaceChars pat rep fuel rest

/-- `s.replace(pat, rep)` over `String`. -/
def strReplace (s pat rep : String) : String :=
  String.mk (replaceChars pat.data rep.data s.data.length s.data)

/-- `json.dumps` of the structured inspection dict (model of
`ai_service.py` line 108: `json.dumps(result_data, ensure_ascii=False)`). -/
def dumpsInspection (is_NG : Bool) (desc : String) : String :=
  "\x7b\"is_NG\": " ++ (if is_NG then "true" else "false")
    ++ ", \"Description\": \"" ++ desc ++ "\"\x7d"

/-- Substring test on character lists. -/
def containsSub (pat : List Char) : List Char → Bool
  | [] => pat.isEmpty
  | c :: rest => pat.isPrefixOf (c :: rest) || containsSub pat rest

/-- `'ng' in result_data.lower()` — the string heuristic of
`ai_service.py` line 113. -/
def lowerContainsNG (s : String) : Bool :=
  containsSub "ng".data (s.data.map Char.toLower)

/-- The all-default parse result (`ai_service.py` lines 79-87). -/
def defaultParsed : ParsedResponse :=
  { result_text := "", is_ng := false, description := "",
    input_tokens := 0, output_tokens := 0, total_tokens := 0,
    usage_json := "\x7b\x7d" }

/-- Parsing of the `result` part (`ai_service.py` lines 104-117). -/
def parseResultData (base : ParsedResponse) : ResultData → ParsedResponse
  | .dictData ng d =>
      { base with is_ng := ng, description := d,
                  result_text := dumpsInspection ng d }
  | .strData s =>
      { base with result_text := s, description := s,
                  is_ng := lowerContainsNG s }

/-- `parse_ai_response` (`src/backend/ai_service.py` lines 62-118):
standardises a response object into a `ParsedResponse`. -/
def parse_ai_response : AIResponse → ParsedResponse
  | .noResponse => defaultParsed
  | .wrapped rd pt ct tt uj =>
      parseResultData
        { defaultParsed with usage_json := uj, input_tokens := pt,
                             output_tokens := ct, total_tokens := tt } rd
  | .bare rd => parseResultData defaultParsed rd

/-! ## Image path helpers (`patrol_service.py` `_rename_image`, `_save_inspection`) -/

/-- `ROBOT_IMAGES_DIR` from `config.py` (with the default robot id). -/
def ROBOT_IMAGES_DIR : String := "data/default/report/images"

/-- `point_name.replace("/", "_").replace("\\", "_")`. -/
def safeName (s : String) : String :=
  strReplace (strReplace s "/" "_") "\\" "_"

/-- Split a character list at every occurrence of `c` (model of
`str.split` on a single character). -/
def splitOnCharAux (c : Char) : List Char → List Char → List (List Char)
  | [], acc => [acc.reverse]
  | x :: xs, acc =>
      if x == c then acc.reverse :: splitOnCharAux c xs []
      else splitOnCharAux c xs (x :: acc)

/-- `os.path.dirname`. -/
def dirname (p : String) : String :=
  String.intercalate "/"
    (((splitOnCharAux '/' p.data []).map String.mk).dropLast)

/-- `os.path.join` for the two-component case used by `_rename_image`. -/
def pathJoin (d f : String) : String :=
  if d = "" then f else d ++ "/" ++ f

/-- `_rename_image` (`patrol_service.py` lines 253-264): renames the image to
`{safe_name}_{NG|OK}_{uuid}.jpg`; on an OSError the original path is kept. -/
def rename_image (image_path point_name : String) (is_ng : Bool)
    (img_uuid : String) (renameOk : Bool) : String :=
  if renameOk then
    pathJoin (dirname image_path)
      (safeName point_name ++ "_" ++ (if is_ng then "NG" else "OK")
        ++ "_" ++ img_uuid ++ ".jpg")
  else image_path

/-- The relative path stored in the DB (`patrol_service.py` line 268):
`image_path.replace(ROBOT_IMAGES_DIR + "/", "").lstrip('/') if image_path else ""`. -/
def relImagePath (image_path : String) : String :=
  if image_path = "" then ""
  else String.mk ((strReplace image_path (ROBOT_IMAGES_DIR ++ "/") "").data.dropWhile (· = '/'))

/-- An `inspection_results` row as inserted by `_save_inspection`
(`patrol_service.py` lines 266-287).  The wall-clock timestamp column and
the constant `robot_id` column are omitted. -/
structure InspRow where
  run_id : Nat
  point_name : String
  coordinate_x : Int
  coordinate_y : Int
  prompt : String
  ai_response : String
  is_ng : Nat
  ai_description : String
  usage_json : String
  input_tokens : Nat
  output_tokens : Nat
  total_tokens : Nat
  image_path : String
  robot_moving_status : String
deriving DecidableEq

/-- `_save_inspection` (`patrol_service.py` lines 266-287): builds the row
that the INSERT persists (`is_ng` stored as `1 if parsed['is_ng'] else 0`). -/
def save_inspection (run_id : Nat) (point : PatrolPoint) (point_name prompt : String)
    (parsed : ParsedResponse) (image_path move_status : String) : InspRow :=
  { run_id := run_id, point_name := point_name,
    coordinate_x := point.x, coordinate_y := point.y, prompt := prompt,
    ai_response := parsed.result_text,
    is_ng := if parsed.is_ng then 1 else 0,
    ai_description := parsed.description,
    usage_json := parsed.usage_json,
    input_tokens := parsed.input_tokens,
    output_tokens := parsed.output_tokens,
    total_tokens := parsed.total_tokens,
    image_path := relImagePath image_path,
    robot_moving_status := move_status }

/-! ## Inspection worker (`patrol_service.py` `_inspection_worker`, lines 211-251) -/

/-- Outcome of a call into the AI collaborator: a response object, or a
raised exception carrying its message. -/
inductive AIOutcome where
  | ok (resp : AIResponse)
  | exn (msg : String)
deriving DecidableEq

/-- One task tuple from the inspection queue
(`patrol_service.py` line 216 / lines 585-588).  `idx` is the position of
the point in the enabled-point list, used to address the per-point oracles
(the Python tuple instead carries the results list by reference). -/
structure WorkerTask where
  idx : Nat
  run_id : Nat
  point : PatrolPoint
  image_path : String
  user_prompt : String
  sys_prompt : String
  img_uuid : String
deriving DecidableEq

/-- Environment behaviour for one worker iteration: whether `Image.open`
succeeds, what the AI call does, whether `os.rename` succeeds, and whether
the DB INSERT in `_save_inspection` succeeds (its failure is caught and
only logged, so it merely loses the row). -/
structure WorkerOracle where
  loadOk : Bool
  ai : AIOutcome
  renameOk : Bool
  dbOk : Bool
deriving DecidableEq

/-- Observable result of one worker iteration. -/
structure WorkerResult where
  row : Option InspRow
  reportItem : Option (String × String)
  aiCalled : Bool
  taskDone : Bool
deriving DecidableEq

/-- The parse used by the worker: on an AI exception the defaults of
`parse_ai_response(None)` are overridden with the error text
(`patrol_service.py` lines 227-234). -/
def workerParse : AIOutcome → ParsedResponse
  | .ok resp => parse_ai_response resp
  | .exn msg =>
      { parse_ai_response .noResponse with
          result_text := "AI Error: " ++ msg, description := msg }

/-- One iteration of `_inspection_worker` (`patrol_service.py` lines
213-251) on a dequeued task.  The `try/finally` of the source guarantees
`task_done` on every path: image-load failure `continue`s (line 224), an AI
exception falls through to a best-effort error result (lines 230-234), and
the rename / DB write handle their own failures. -/
def inspection_worker_step (t : WorkerTask) (o : WorkerOracle) : WorkerResult :=
  if o.loadOk then
    let pname := t.point.name
    let parsed := workerParse o.ai
    let newPath := rename_image t.image_path pname parsed.is_ng t.img_uuid o.renameOk
    let row := save_inspection t.run_id t.point pname t.user_prompt parsed newPath "Success"
    { row := if o.dbOk then some row else none,
      reportItem := some (pname, parsed.result_text),
      aiCalled := true, taskDone := true }
  else
    { row := none, reportItem := none, aiCalled := false, taskDone := true }

/-! ## Patrol orchestrator (`patrol_service.py` `_patrol_logic`, lines 290-548)

The mission thread is modelled as a function from an environment (points,
settings, collaborator oracles, and the time at which a `stop_patrol`
request becomes visible to the cooperative flag checks) to a trace of
observable events.  DB writes appear as events; the effects of the
background worker are linearised at the `queue.join()` barrier. -/

/-- The settings fields `_patrol_logic` reads from `settings_service`. -/
structure PatrolSettings where
  turbo_mode : Bool
  enable_video_recording : Bool
  enable_live_monitor : Bool
  vila_jps_url : String
  enable_robot_camera_relay : Bool
  enable_external_rtsp : Bool
  external_rtsp_url : String
  live_monitor_rules : List String
  enable_telegram : Bool
  system_prompt : String
deriving DecidableEq

/-- Environment of one mission: configuration, collaborator oracles
(indexed by the position of the point in the enabled list) and the stop
request.  `stopAfter = some k` means the `is_patrolling` flag reads `false`
from the `k`-th flag check onward (cooperative cancellation);
`none` means `stop_patrol` is never called. -/
structure PatrolEnv where
  points : List PatrolPoint
  settings : PatrolSettings
  aiConfigured : Bool
  runInsertOk : Bool
  runId : Nat
  stopAfter : Option Nat
  moveResult : Nat → String
  captureOk : Nat → Bool
  aiInspect : Nat → AIOutcome
  renameOk : Nat → Bool
  dbOk : Nat → Bool
  workerLoadOk : Nat → Bool
  robotRelayOk : Bool
  extRelayOk : Bool
  reportAI : AIOutcome
  imgUuid : Nat → String

/-- Observable events of a mission. `insertRow i r` records that the row
`r` was written for the point at position `i` of the enabled list
(`i` is a trace label; the DB row itself is `r`). -/
inductive Ev where
  | setStatus (s : String)
  | insertRun (runId : Nat)
  | moveTo (i : Nat)
  | capture (i : Nat)
  | aiCall (i : Nat)
  | enqueue (i : Nat)
  | insertRow (i : Nat) (r : InspRow)
  | returnHome
  | queueJoin
  | stopLiveMonitor
  | stopRelays
  | stopRecorder
  | videoAnalysis
  | updateRunEnd (status : String)
  | reportGen (content : String)
  | sendTelegram
  | updateTokens
  | clearRun
deriving DecidableEq

/-- The `is_patrolling` flag as observed by the `c`-th check. -/
def flagAlive (env : PatrolEnv) (c : Nat) : Bool :=
  match env.stopAfter with
  | none => true
  | some k => c < k

/-- The enabled points: `[p for p in points if p.get('enabled', True)]`
(`patrol_service.py` line 304). -/
def enabledPoints (env : PatrolEnv) : List PatrolPoint :=
  env.points.filter (·.enabled)

/-- The per-run image directory (`patrol_service.py` lines 331-333; the
filename timestamp is abstracted to a constant). -/
def runImagesDir (env : PatrolEnv) : String :=
  ROBOT_IMAGES_DIR ++ "/" ++ toString env.runId ++ "_ts"

/-- The capture path `{safe_name}_processing_{uuid}.jpg` of `_inspect_point`
(`patrol_service.py` line 577). -/
def pointImagePath (env : PatrolEnv) (pt : PatrolPoint) (i : Nat) : String :=
  runImagesDir env ++ "/" ++ safeName pt.name ++ "_processing_" ++ env.imgUuid i ++ ".jpg"

/-- Result of the waypoint loop: its events, the tasks put on the
inspection queue (in order), the in-memory `inspections_data` entries
appended synchronously, and the clock value after the loop (the number of
`is_patrolling` checks performed). -/
structure LoopOut where
  evs : List Ev
  queue : List WorkerTask
  data : List (String × String)
  clock : Nat
deriving DecidableEq

/-- `_inspect_point` (`patrol_service.py` lines 567-604): capture an image
and either enqueue the inspection (turbo) or run it synchronously.
`captureOk i = false` covers a falsy/raising camera call or a failing
image decode/save — all of which end the function with no row and no
queue entry.  In the synchronous path an AI exception is caught by the
outer handler (line 601): status is set to `Error at {name}` and no row is
written. -/
def inspectPoint (env : PatrolEnv) (i : Nat) (pt : PatrolPoint) :
    List Ev × List WorkerTask × List (String × String) :=
  if env.captureOk i then
    let imgPath := pointImagePath env pt i
    if env.settings.turbo_mode then
      ([Ev.capture i, Ev.enqueue i],
       [{ idx := i, run_id := env.runId, point := pt, image_path := imgPath,
          user_prompt := pt.prompt, sys_prompt := env.settings.system_prompt,
          img_uuid := env.imgUuid i }],
       [])
    else
      match env.aiInspect i with
      | .exn _ =>
          ([Ev.capture i, Ev.aiCall i, Ev.setStatus ("Error at " ++ pt.name)], [], [])
      | .ok resp =>
          let parsed := parse_ai_response resp
          let newPath := rename_image imgPath pt.name parsed.is_ng (env.imgUuid i) (env.renameOk i)
          let row := save_inspection env.runId pt pt.name pt.prompt parsed newPath "Success"
          ([Ev.capture i, Ev.aiCall i] ++ (if env.dbOk i then [Ev.insertRow i row] else []),
           [], [(pt.name, parsed.result_text)])
  else
    ([Ev.capture i], [], [])

/-- The parsed dict literal used for a failed move
(`patrol_service.py` lines 423-428). -/
def moveFailParsed (move_status : String) : ParsedResponse :=
  { result_text := "Move Failed", is_ng := true, description := move_status,
    input_tokens := 0, output_tokens := 0, total_tokens := 0,
    usage_json := "\x7b\x7d" }

/-- The waypoint loop of `_patrol_logic` (lines 409-443) over the remaining
enabled points, carrying the absolute position `i` and the flag-check
clock `c`.  The stop flag is checked before the move and again after a
successful move; a failed move writes one NG row and continues. -/
def patrolLoop (env : PatrolEnv) : List PatrolPoint → Nat → Nat → LoopOut
  | [], _, c => { evs := [], queue := [], data := [], clock := c }
  | pt :: rest, i, c =>
    if flagAlive env c then
      let mv := env.moveResult i
      let evs0 := [Ev.setStatus ("Moving to " ++ pt.name ++ "..."), Ev.moveTo i]
      if mv == "Success" then
        if flagAlive env (c + 1) then
          let insEv := [Ev.setStatus ("Inspecting " ++ pt.name ++ "...")]
          let step := inspectPoint env i pt
          let tail := patrolLoop env rest (i + 1) (c + 2)
          { evs := evs0 ++ insEv ++ step.1 ++ tail.evs,
            queue := step.2.1 ++ tail.queue,
            data := step.2.2 ++ tail.data,
            clock := tail.clock }
        else
          { evs := evs0, queue := [], data := [], clock := c + 2 }
      else
        let row := save_inspection env.runId pt pt.name "" (moveFailParsed mv) "" mv
        let rowEv := if env.dbOk i then [Ev.insertRow i row] else []
        let tail := patrolLoop env rest (i + 1) (c + 1)
        { evs := evs0 ++ rowEv ++ tail.evs,
          queue := tail.queue, data := tail.data, clock := tail.clock }
    else
      { evs := [], queue := [], data := [], clock := c + 1 }

/-- Whether `live_monitor_active` was set during setup
(`patrol_service.py` lines 351-402): live monitor enabled, a VILA URL
configured, at least one stream successfully started (robot-camera relay
or external RTSP relay), and at least one rule. -/
def liveMonitorActive (env : PatrolEnv) : Bool :=
  let st := env.settings
  st.enable_live_monitor && st.vila_jps_url != "" &&
    ((st.enable_robot_camera_relay && env.robotRelayOk) ||
      (st.enable_external_rtsp && st.external_rtsp_url != "" && env.extRelayOk)) &&
    !st.live_monitor_rules.isEmpty

/-- The `finally` block of the waypoint loop (`patrol_service.py` lines
444-461): unconditionally attempt to stop the live monitor (if it was
started), all relays, and the video recorder (if one was started).  Each
call is wrapped in its own `try/except Exception: logger.error`, so a
failure of one is swallowed and cannot suppress the others — hence the
emitted attempt events do not depend on any failure oracle. -/
def cleanupEvents (env : PatrolEnv) : List Ev :=
  (if liveMonitorActive env then [Ev.stopLiveMonitor] else []) ++
  [Ev.stopRelays] ++
  (if env.settings.enable_video_recording then [Ev.stopRecorder] else [])

/-- The worker oracle for the task at enabled-list position `i`. -/
def workerOracleAt (env : PatrolEnv) (i : Nat) : WorkerOracle :=
  { loadOk := env.workerLoadOk i, ai := env.aiInspect i,
    renameOk := env.renameOk i, dbOk := env.dbOk i }

/-- Effects of the background worker on the queued tasks, linearised at the
`queue.join()` barrier (`patrol_service.py` line 485): the events of each
`_inspection_worker` iteration and the `results_list` entries it appends. -/
def drainQueue (env : PatrolEnv) : List WorkerTask → List Ev × List (String × String)
  | [] => ([], [])
  | t :: rest =>
      let r := inspection_worker_step t (workerOracleAt env t.idx)
      let tail := drainQueue env rest
      ((if r.aiCalled then [Ev.aiCall t.idx] else []) ++
        (match r.row with
         | some row => [Ev.insertRow t.idx row]
         | none => []) ++ tail.1,
       (match r.reportItem with
        | some it => [it]
        | none => []) ++ tail.2)

/-- `_generate_report` (`patrol_service.py` lines 606-664): no report when
`inspections_data` is empty; an exception from the report AI call is caught
and produces no DB update and no notification; otherwise the report row is
written and, when Telegram is enabled, a notification is sent. -/
def reportEvents (env : PatrolEnv) (inspections : List (String × String)) : List Ev :=
  if inspections.isEmpty then []
  else
    match env.reportAI with
    | .exn _ => []
    | .ok resp =>
        [Ev.reportGen (parse_ai_response resp).result_text] ++
          (if env.settings.enable_telegram then [Ev.sendTelegram] else [])

/-- The finalisation phase of `_patrol_logic` (lines 463-548), after the
cleanup block.  `was_patrolling` is one more read of the stop flag
(line 465).  On the normal path: return home, in turbo mode block on
`queue.join()` (the worker effects appear here), optionally analyse the
video, write `end_time`/status, generate the report, reach `Finished`.
On the stopped path: write `end_time`/status only. -/
def finalizeEvents (env : PatrolEnv) (out : LoopOut) : List Ev :=
  if flagAlive env out.clock then
    let drained := drainQueue env out.queue
    let inspections := out.data ++ (if env.settings.turbo_mode then drained.2 else [])
    [Ev.setStatus "Returning Home...", Ev.returnHome] ++
    (if env.settings.turbo_mode then
      [Ev.setStatus "Processing Images...", Ev.queueJoin] ++ drained.1
     else []) ++
    (if env.settings.enable_video_recording then
      [Ev.setStatus "Analyzing Video...", Ev.videoAnalysis]
     else []) ++
    [Ev.updateRunEnd "Completed", Ev.setStatus "Generating Report..."] ++
    reportEvents env inspections ++
    [Ev.setStatus "Finished"]
  else
    [Ev.updateRunEnd "Patrol Stopped"]

/-- `_patrol_logic` (`patrol_service.py` lines 290-548) as a trace of
events.  The three abort paths before the waypoint loop: AI not configured
(lines 296-301), no enabled points (lines 306-310) and a failing
`patrol_runs` INSERT (lines 313-326) end the mission with only status
events.  Otherwise the run row is created, the loop runs, the cleanup block
always follows, then finalisation and the token-total update. -/
def patrolTrace (env : PatrolEnv) : List Ev :=
  if !env.aiConfigured then
    [Ev.setStatus "Starting...", Ev.setStatus "Error: AI Not Configured"]
  else if (enabledPoints env).isEmpty then
    [Ev.setStatus "Starting...", Ev.setStatus "No enabled points"]
  else if !env.runInsertOk then
    [Ev.setStatus "Starting...", Ev.setStatus "Error: Database Error"]
  else
    let out := patrolLoop env (enabledPoints env) 0 0
    [Ev.setStatus "Starting...", Ev.insertRun env.runId] ++
    (if env.settings.enable_video_recording then
      [Ev.setStatus "Starting Video Recording..."] else []) ++
    out.evs ++ cleanupEvents env ++ finalizeEvents env out ++
    [Ev.updateTokens, Ev.clearRun]

/-! ### Interpreting the trace as the final `patrol_runs` row -/

/-- The fields of the mission's `patrol_runs` row that the claims are
about, as built up by the trace's DB events. -/
structure RunRecord where
  created : Bool
  status : String
  endTimeSet : Bool
  report_content : Option String
deriving DecidableEq

/-- Apply one event to the run record: the INSERT creates it with status
`Running` (line 316), the end-of-run UPDATE sets `end_time` and the final
status (lines 513-516 / 530-533), the report UPDATE sets `report_content`
(lines 637-644). -/
def applyEv (r : RunRecord) : Ev → RunRecord
  | .insertRun _ => { r with created := true, status := "Running" }
  | .updateRunEnd s => { r with status := s, endTimeSet := true }
  | .reportGen c => { r with report_content := some c }
  | _ => r

/-- The `patrol_runs` row resulting from a trace. -/
def runRecord (tr : List Ev) : RunRecord :=
  tr.foldl applyEv { created := false, status := "", endTimeSet := false, report_content := none }

/-! ### Trace predicates -/

/-- Event is a DB insert of an inspection row. -/
def isInsertRow : Ev → Bool
  | .insertRow _ _ => true
  | _ => false

/-- Event is an inspection row for enabled-list position `i`. -/
def isRowFor (i : Nat) : Ev → Bool
  | .insertRow j _ => j == i
  | _ => false

/-- Event is an inspection row written with `robot_moving_status =
"Success"` — the success-or-AI-error rows of turbo mode, as opposed to the
move-failure rows. -/
def isSuccessRow : Ev → Bool
  | .insertRow _ r => r.robot_moving_status == "Success"
  | _ => false

/-- Event is a report-content write. -/
def isReportGen : Ev → Bool
  | .reportGen _ => true
  | _ => false

/-- Event is the Telegram notification. -/
def isSendTelegram : Ev → Bool
  | .sendTelegram => true
  | _ => false

/-- Event is a camera capture for position `i`. -/
def isCaptureFor (i : Nat) : Ev → Bool
  | .capture j => j == i
  | _ => false

/-- Event is an AI inspection call for position `i`. -/
def isAiCallFor (i : Nat) : Ev → Bool
  | .aiCall j => j == i
  | _ => false

/-- Event is the creation of the `patrol_runs` row. -/
def isInsertRun : Ev → Bool
  | .insertRun _ => true
  | _ => false

/-- The number of enabled points whose move succeeded (the `M` of claim
P2/turbo completeness). -/
def movesSucceeded (env : PatrolEnv) : Nat :=
  (List.range (enabledPoints env).length).countP
    (fun i => env.moveResult i == "Success")

/-! ## Patrol start/stop control (`patrol_service.py` lines 174-207)

`start_patrol` / `stop_patrol` act on the service's shared state.  The
model is the sequential semantics of the lock-protected code: the two
lock-check-act sections of `start_patrol` collapse into one check, and the
spawned mission thread is recorded as a count of live mission threads
(its body — `_patrol_logic` — is `patrolTrace` above and is not executed
by `start_patrol` itself: the call returns immediately). -/

/-- The service state touched by `start_patrol`/`stop_patrol`:
the mission flag, how many mission threads have been spawned and how many
`patrol_runs` rows exist (rows are created only by the mission thread,
never by `start_patrol`). -/
structure ServiceState where
  is_patrolling : Bool
  patrol_status : String
  threadCount : Nat
  runRows : Nat
  current_patrol_index : Int
  current_run_id : Option Nat
deriving DecidableEq

/-- `start_patrol` (`patrol_service.py` lines 174-195): reject when a
mission is active; otherwise mark active, reset the per-mission state,
spawn the mission thread and return immediately. -/
def start_patrol (s : ServiceState) : (Bool × String) × ServiceState :=
  if s.is_patrolling then
    ((false, "Already patrolling"), s)
  else
    ((true, "Started"),
     { s with is_patrolling := true,
              threadCount := s.threadCount + 1,
              current_patrol_index := -1,
              current_run_id := none })

/-- `stop_patrol` (`patrol_service.py` lines 197-207): idempotent; clears
the flag and sets the status. -/
def stop_patrol (s : ServiceState) : Bool × ServiceState :=
  (true, { s with is_patrolling := false, patrol_status := "Stopping..." })

/-! ## Live alert monitor (`live_monitor.py` `_handle_ws_event`, lines 254-334)

Events arriving on the WebSocket are processed in arrival order by the
single listener thread, so the handler is modelled as a fold over the event
list, threading the cooldown map and the list of persisted `live_alerts`
rows. -/

/-- An inbound WebSocket alert event: stream id, rule string and the
`time.time()` value at processing (in seconds). -/
structure AlertEvent where
  stream_id : String
  rule : String
  time : Nat
deriving DecidableEq

/-- A `live_alerts` row as inserted at `live_monitor.py` lines 309-315
(evidence-image path and constant robot id omitted; the timestamp is the
event's processing time). -/
structure LiveAlertRow where
  run_id : Nat
  rule : String
  response : String
  timestamp : Nat
  stream_source : String
deriving DecidableEq

/-- Monitor state: the cooldown map `{stream_id}:{rule} -> last trigger
time` and the persisted rows. -/
structure MonitorState where
  cooldowns : List (String × Nat)
  rows : List LiveAlertRow
deriving DecidableEq

/-- `self.alert_cooldowns.get(cooldown_key, 0)`. -/
def cooldownGet (m : List (String × Nat)) (k : String) : Nat :=
  match m.find? (fun p => p.1 == k) with
  | some p => p.2
  | none => 0

/-- `self.alert_cooldowns[cooldown_key] = now` (dict update). -/
def cooldownSet (m : List (String × Nat)) (k : String) (v : Nat) : List (String × Nat) :=
  (k, v) :: m.filter (fun p => p.1 != k)

/-- `self.cooldown_seconds = 60` (`live_monitor.py` line 40). -/
def cooldown_seconds : Nat := 60

/-- `_handle_ws_event` (`live_monitor.py` lines 254-334) restricted to its
persistent effects.  An event with an empty rule returns before the
cooldown check (line 266); an event within `cooldown_seconds` of the last
persisted trigger for the same `{stream_id}:{rule}` key is suppressed
(lines 280-284 — note Python's `now - last < 60` on reals and the
truncated `Nat` subtraction agree for every `now`, `last`, since a
negative difference is also below 60); otherwise the cooldown map is
stamped and one row is inserted.  `streamType` maps a stream id to the
`type` tag of its registered stream config (`"unknown"` for an unknown
id). -/
def handle_ws_event (run_id : Nat) (streamType : String → String)
    (st : MonitorState) (e : AlertEvent) : MonitorState :=
  if e.rule == "" then st
  else
    let key := e.stream_id ++ ":" ++ e.rule
    let last := cooldownGet st.cooldowns key
    if e.time - last < cooldown_seconds then st
    else
      { cooldowns := cooldownSet st.cooldowns key e.time,
        rows := st.rows ++
          [{ run_id := run_id, rule := e.rule, response := "triggered",
             timestamp := e.time, stream_source := streamType e.stream_id }] }

/-- Processing a sequence of WebSocket events in arrival order, starting
from the fresh state `start()` leaves behind (empty cooldown map, no
alerts — `live_monitor.py` lines 71-72). -/
def processEvents (run_id : Nat) (streamType : String → String)
    (evs : List AlertEvent) : MonitorState :=
  evs.foldl (handle_ws_event run_id streamType) { cooldowns := [], rows := [] }

/-! ## Relay manager (`relay_manager.py` lines 229-497) -/

/-- `MAX_RETRIES = 3` (`relay_manager.py` line 27). -/
def MAX_RETRIES : Nat := 3

/-- A tracked relay (`_RelayEntry`, `relay_manager.py` lines 213-226):
subprocesses are identified by a model pid, `alive` is `process.poll() is
None`. -/
structure RelayEntry where
  relay_type : String
  pid : Nat
  alive : Bool
  restart_count : Nat
deriving DecidableEq

/-- The manager's state: the tracked entries (`self._relays`, insertion
order as in a Python dict), a fresh-pid counter and the total number of
subprocesses ever spawned. -/
structure RelayState where
  relays : List (String × RelayEntry)
  nextPid : Nat
  spawned : Nat
deriving DecidableEq

/-- `self._relays.get(key)`. -/
def relayLookup (st : RelayState) (k : String) : Option RelayEntry :=
  (st.relays.find? (fun p => p.1 == k)).map (fun p => p.2)

/-- `self._relays[key] = entry`: replace in place if the key exists,
append otherwise (Python dict assignment preserves insertion order). -/
def relayAssign (l : List (String × RelayEntry)) (k : String) (e : RelayEntry) :
    List (String × RelayEntry) :=
  match l with
  | [] => [(k, e)]
  | (k', e') :: rest =>
      if k' == k then (k, e) :: rest
      else (k', e') :: relayAssign rest k e

/-- `start_robot_camera_relay` (`relay_manager.py` lines 239-301): if a
tracked entry for `{robot_id}/camera` has a live process, return the
existing path without spawning; otherwise spawn an ffmpeg subprocess plus
feeder thread and track it.  The returned `Bool` records whether a
subprocess was spawned. -/
def start_robot_camera_relay (robot_id : String) (st : RelayState) :
    String × RelayState × Bool :=
  let key := robot_id ++ "/camera"
  let rtsp_path := "/" ++ key
  match relayLookup st key with
  | some e =>
      if e.alive then (rtsp_path, st, false)
      else
        (rtsp_path,
         { relays := relayAssign st.relays key
             { relay_type := "robot_camera", pid := st.nextPid, alive := true, restart_count := 0 },
           nextPid := st.nextPid + 1, spawned := st.spawned + 1 }, true)
  | none =>
      (rtsp_path,
       { relays := relayAssign st.relays key
           { relay_type := "robot_camera", pid := st.nextPid, alive := true, restart_count := 0 },
         nextPid := st.nextPid + 1, spawned := st.spawned + 1 }, true)

/-- `start_external_rtsp_relay` (`relay_manager.py` lines 303-347): same
idempotency for key `{robot_id}/external` (the source URL does not affect
the tracked state). -/
def start_external_rtsp_relay (robot_id source_url : String) (st : RelayState) :
    String × RelayState × Bool :=
  let _ := source_url
  let key := robot_id ++ "/external"
  let rtsp_path := "/" ++ key
  match relayLookup st key with
  | some e =>
      if e.alive then (rtsp_path, st, false)
      else
        (rtsp_path,
         { relays := relayAssign st.relays key
             { relay_type := "external_rtsp", pid := st.nextPid, alive := true, restart_count := 0 },
           nextPid := st.nextPid + 1, spawned := st.spawned + 1 }, true)
  | none =>
      (rtsp_path,
       { relays := relayAssign st.relays key
           { relay_type := "external_rtsp", pid := st.nextPid, alive := true, restart_count := 0 },
         nextPid := st.nextPid + 1, spawned := st.spawned + 1 }, true)

/-- One pass of `_monitor_loop` (`relay_manager.py` lines 439-497) over the
tracked entries: a dead entry that has not exceeded `MAX_RETRIES` is
restarted by mutating the entry in place (`entry.process = new_proc`,
`entry.restart_count += 1`) — the key set is never changed; a failing
restart (`restartOk key = false`, the caught `except` at line 496) leaves
the entry untouched. -/
def monitorEntries (restartOk : String → Bool) :
    List (String × RelayEntry) → Nat → Nat → List (String × RelayEntry) × Nat × Nat
  | [], n, s => ([], n, s)
  | (k, e) :: rest, n, s =>
      if e.alive then
        ((k, e) :: (monitorEntries restartOk rest n s).1,
         (monitorEntries restartOk rest n s).2)
      else if MAX_RETRIES ≤ e.restart_count then
        ((k, e) :: (monitorEntries restartOk rest n s).1,
         (monitorEntries restartOk rest n s).2)
      else if restartOk k then
        ((k, { e with pid := n, alive := true, restart_count := e.restart_count + 1 }) ::
            (monitorEntries restartOk rest (n + 1) (s + 1)).1,
         (monitorEntries restartOk rest (n + 1) (s + 1)).2)
      else
        ((k, e) :: (monitorEntries restartOk rest n s).1,
         (monitorEntries restartOk rest n s).2)

/-- One pass of `_monitor_loop` over the whole tracked map. -/
def monitorPass (restartOk : String → Bool) (st : RelayState) : RelayState :=
  let r := monitorEntries restartOk st.relays st.nextPid st.spawned
  { relays := r.1, nextPid := r.2.1, spawned := r.2.2 }

/-! ### Normal form of the loop when no stop is requested -/

/-- The events of one waypoint iteration when the stop flag stays up. -/
def pointEvs (env : PatrolEnv) (i : Nat) (pt : PatrolPoint) : List Ev :=
  [Ev.setStatus ("Moving to " ++ pt.name ++ "..."), Ev.moveTo i] ++
  (if env.moveResult i == "Success" then
    [Ev.setStatus ("Inspecting " ++ pt.name ++ "...")] ++ (inspectPoint env i pt).1
   else if env.dbOk i then
    [Ev.insertRow i (save_inspection env.runId pt pt.name ""
      (moveFailParsed (env.moveResult i)) "" (env.moveResult i))]
   else [])

/-- The queue entries of one waypoint iteration when the stop flag stays up. -/
def pointTasks (env : PatrolEnv) (i : Nat) (pt : PatrolPoint) : List WorkerTask :=
  if env.moveResult i == "Success" then (inspectPoint env i pt).2.1 else []

/-- The synchronous `inspections_data` entries of one waypoint iteration. -/
def pointData (env : PatrolEnv) (i : Nat) (pt : PatrolPoint) : List (String × String) :=
  if env.moveResult i == "Success" then (inspectPoint env i pt).2.2 else []

/-- Loop events with no stop request, as a per-point concatenation. -/
def loopEvsN (env : PatrolEnv) : List PatrolPoint → Nat → List Ev
  | [], _ => []
  | pt :: rest, i => pointEvs env i pt ++ loopEvsN env rest (i + 1)

/-- Loop queue with no stop request, as a per-point concatenation. -/
def loopTasksN (env : PatrolEnv) : List PatrolPoint → Nat → List WorkerTask
  | [], _ => []
  | pt :: rest, i => pointTasks env i pt ++ loopTasksN env rest (i + 1)

/-- Loop `inspections_data` with no stop request. -/
def loopDataN (env : PatrolEnv) : List PatrolPoint → Nat → List (String × String)
  | [], _ => []
  | pt :: rest, i => pointData env i pt ++ loopDataN env rest (i + 1)

/-- Event carries the enabled-list position `i` (move, capture, AI call,
enqueue or row insert for that point). -/
def touchesIdx (i : Nat) : Ev → Bool
  | .moveTo j => j == i
  | .capture j => j == i
  | .aiCall j => j == i
  | .enqueue j => j == i
  | .insertRow j _ => j == i
  | _ => false

/-! ## Theorems -/

/-- String-append normalisation for the `_OK_` image tag. -/
theorem okTagAppend (s u : String) :
    s ++ "_" ++ "OK" ++ "_" ++ u ++ ".jpg" = s ++ "_OK_" ++ (u ++ ".jpg") := by
  apply String.ext
  simp [String.data_append]

/-- C2: a second `start_patrol` while a mission is active returns
`(false, "Already patrolling")` and changes nothing — no second mission
thread, no second `patrol_runs` row; a call on an idle service returns
`(true, "Started")` immediately, marks the service active, spawns exactly
one mission thread and itself creates no run row. -/
theorem start_patrol_mutual_exclusion (s : ServiceState) (h : s.is_patrolling = false) :
    (start_patrol s).1 = (true, "Started") ∧
    (start_patrol s).2.is_patrolling = true ∧
    (start_patrol s).2.runRows = s.runRows ∧
    (start_patrol s).2.threadCount = s.threadCount + 1 ∧
    start_patrol (start_patrol s).2 = ((false, "Already patrolling"), (start_patrol s).2) ∧
    (∀ s' : ServiceState, s'.is_patrolling = true →
      start_patrol s' = ((false, "Already patrolling"), s')) := by
  refine ⟨?_, ?_, ?_, ?_, ?_, ?_⟩
  · simp [start_patrol, h]
  · simp [start_patrol, h]
  · simp [start_patrol, h]
  · simp [start_patrol, h]
  · simp [start_patrol, h]
  · intro s' h'
    simp [start_patrol, h']

/-- Witness for C2 at a concrete idle state. -/
theorem start_patrol_mutual_exclusion_witness :
    let s0 : ServiceState :=
      { is_patrolling := false, patrol_status := "Idle", threadCount := 0,
        runRows := 0, current_patrol_index := -1, current_run_id := none }
    (start_patrol s0).1 = (true, "Started") ∧
    (start_patrol s0).2.is_patrolling = true ∧
    (start_patrol s0).2.runRows = s0.runRows ∧
    (start_patrol s0).2.threadCount = s0.threadCount + 1 ∧
    start_patrol (start_patrol s0).2 = ((false, "Already patrolling"), (start_patrol s0).2) ∧
    (∀ s' : ServiceState, s'.is_patrolling = true →
      start_patrol s' = ((false, "Already patrolling"), s')) :=
  start_patrol_mutual_exclusion _ rfl

/-- C3: `task_done` is reached on every worker path (image-load failure,
AI exception, rename failure, DB-write failure — all oracle values), so
the `queue.join()` barrier cannot deadlock; and on an AI exception, when
the DB write goes through, a best-effort AI-error row is persisted. -/
theorem worker_task_done_on_all_paths (t : WorkerTask) (o : WorkerOracle) (msg : String) :
    (inspection_worker_step t o).taskDone = true ∧
    (o.loadOk = true → o.dbOk = true → o.ai = AIOutcome.exn msg →
      ∃ r, (inspection_worker_step t o).row = some r ∧
        r.ai_response = "AI Error: " ++ msg ∧ r.ai_description = msg) := by
  constructor
  · unfold inspection_worker_step
    cases h : o.loadOk <;> simp
  · intro hl hdb hai
    have hrow : (inspection_worker_step t o).row =
        some (save_inspection t.run_id t.point t.point.name t.user_prompt (workerParse o.ai)
          (rename_image t.image_path t.point.name (workerParse o.ai).is_ng t.img_uuid o.renameOk)
          "Success") := by
      simp [inspection_worker_step, hl, hdb]
    exact ⟨_, hrow, by simp [hai, workerParse, save_inspection],
      by simp [hai, workerParse, save_inspection]⟩

/-- Witness for C3: AI exception with working image load and DB. -/
theorem worker_task_done_on_all_paths_witness :
    let t0 : WorkerTask :=
      { idx := 0, run_id := 1, point := { name := "A", x := 0, y := 0, prompt := "p", enabled := true },
        image_path := "img.jpg", user_prompt := "p", sys_prompt := "", img_uuid := "u" }
    let o0 : WorkerOracle := { loadOk := true, ai := .exn "boom", renameOk := true, dbOk := true }
    (inspection_worker_step t0 o0).taskDone = true ∧
    (∃ r, (inspection_worker_step t0 o0).row = some r ∧
      r.ai_response = "AI Error: " ++ "boom" ∧ r.ai_description = "boom") := by
  intro t0 o0
  have h := worker_task_done_on_all_paths t0 o0 "boom"
  exact ⟨h.1, h.2 rfl rfl rfl⟩

/-- C10: on an AI exception in a turbo inspection the worker persists the
point's row with `is_ng = 0`, move status `"Success"`, zero token counts,
the error only in `ai_response`/`ai_description`, and the evidence image
renamed with the `OK` tag. -/
theorem worker_ai_error_row_shape (t : WorkerTask) (o : WorkerOracle) (msg : String)
    (hl : o.loadOk = true) (hdb : o.dbOk = true) (hr : o.renameOk = true)
    (hai : o.ai = AIOutcome.exn msg) :
    ∃ r, (inspection_worker_step t o).row = some r ∧
      r.is_ng = 0 ∧ r.robot_moving_status = "Success" ∧
      r.input_tokens = 0 ∧ r.output_tokens = 0 ∧ r.total_tokens = 0 ∧
      r.ai_response = "AI Error: " ++ msg ∧ r.ai_description = msg ∧
      r.image_path = relImagePath (pathJoin (dirname t.image_path)
        (safeName t.point.name ++ "_OK_" ++ (t.img_uuid ++ ".jpg"))) := by
  have hrow : (inspection_worker_step t o).row =
      some (save_inspection t.run_id t.point t.point.name t.user_prompt (workerParse o.ai)
        (rename_image t.image_path t.point.name (workerParse o.ai).is_ng t.img_uuid o.renameOk)
        "Success") := by
    simp [inspection_worker_step, hl, hdb]
  refine ⟨_, hrow, ?_, ?_, ?_, ?_, ?_, ?_, ?_, ?_⟩ <;>
    simp [hai, hr, workerParse, save_inspection, parse_ai_response, defaultParsed,
      rename_image, okTagAppend]

/-- Witness for C10. -/
theorem worker_ai_error_row_shape_witness :
    let t0 : WorkerTask :=
      { idx := 0, run_id := 1, point := { name := "A", x := 0, y := 0, prompt := "p", enabled := true },
        image_path := "data/default/report/images/1_ts/A_processing_u.jpg",
        user_prompt := "p", sys_prompt := "", img_uuid := "u" }
    let o0 : WorkerOracle := { loadOk := true, ai := .exn "boom", renameOk := true, dbOk := true }
    ∃ r, (inspection_worker_step t0 o0).row = some r ∧
      r.is_ng = 0 ∧ r.robot_moving_status = "Success" ∧
      r.input_tokens = 0 ∧ r.output_tokens = 0 ∧ r.total_tokens = 0 ∧
      r.ai_response = "AI Error: " ++ "boom" ∧ r.ai_description = "boom" ∧
      r.image_path = relImagePath (pathJoin (dirname t0.image_path)
        (safeName t0.point.name ++ "_OK_" ++ ("u" ++ ".jpg"))) :=
  worker_ai_error_row_shape _ _ "boom" rfl rfl rfl rfl

/-- C5: two events for the same stream+rule within the 60-second cooldown
window persist exactly one `live_alerts` row (the second is suppressed by
the cooldown map); a further event for the same stream+rule arriving once
the window has elapsed since the persisted trigger yields a second row.
(`60 ≤ t1` reflects that `time.time()` is epoch seconds, far above the
window; the map's `.get(key, 0)` default would otherwise suppress even a
first event in the model.) -/
theorem live_alert_cooldown (rid : Nat) (stype : String → String)
    (sid rule : String) (t1 t2 t3 : Nat)
    (hrule : rule ≠ "") (h1 : 60 ≤ t1) (h12 : t1 ≤ t2) (hin : t2 - t1 < 60)
    (hout : 60 ≤ t3 - t1) :
    (processEvents rid stype
      [{ stream_id := sid, rule := rule, time := t1 },
       { stream_id := sid, rule := rule, time := t2 }]).rows.length = 1 ∧
    (processEvents rid stype
      [{ stream_id := sid, rule := rule, time := t1 },
       { stream_id := sid, rule := rule, time := t2 },
       { stream_id := sid, rule := rule, time := t3 }]).rows.length = 2 := by
  have hrb : (rule == "") = false := by
    simpa using hrule
  have hn1 : ¬ (t1 < 60) := by omega
  have hn3 : ¬ (t3 - t1 < 60) := by omega
  constructor <;>
    simp [processEvents, handle_ws_event, cooldownGet, cooldownSet,
      cooldown_seconds, hrb, hn1, hin, hn3]

/-- Witness for C5 at concrete times 100, 130, 200. -/
theorem live_alert_cooldown_witness :
    (processEvents 1 (fun _ => "robot_camera")
      [{ stream_id := "s", rule := "fire", time := 100 },
       { stream_id := "s", rule := "fire", time := 130 }]).rows.length = 1 ∧
    (processEvents 1 (fun _ => "robot_camera")
      [{ stream_id := "s", rule := "fire", time := 100 },
       { stream_id := "s", rule := "fire", time := 130 },
       { stream_id := "s", rule := "fire", time := 200 }]).rows.length = 2 :=
  live_alert_cooldown 1 (fun _ => "robot_camera") "s" "fire" 100 130 200
    (by decide) (by decide) (by decide) (by decide) (by decide)

/-- `find?` over a cons whose head matches. -/
theorem findq_cons_true {α : Type} (p : α → Bool) (a : α) (l : List α)
    (h : p a = true) : List.find? p (a :: l) = some a := by
  simp [List.find?, h]

/-- `find?` over a cons whose head does not match. -/
theorem findq_cons_false {α : Type} (p : α → Bool) (a : α) (l : List α)
    (h : p a = false) : List.find? p (a :: l) = List.find? p l := by
  simp [List.find?, h]

/-- Key search skips a relay entry with a different key. -/
theorem findKey_skip (k k' : String) (e2 : RelayEntry)
    (l : List (String × RelayEntry)) (h : (k' == k) = false) :
    List.find? (fun p => p.1 == k) ((k', e2) :: l) =
      List.find? (fun p => p.1 == k) l :=
  findq_cons_false _ _ _ h

/-- Key search stops at a relay entry with the matching key. -/
theorem findKey_here (k k' : String) (e2 : RelayEntry)
    (l : List (String × RelayEntry)) (h : (k' == k) = true) :
    List.find? (fun p => p.1 == k) ((k', e2) :: l) = some (k', e2) :=
  findq_cons_true _ _ _ h

/-- Keys of the tracked-relay map are unchanged by one health-monitor
pass: entries are replaced in place, never added or removed. -/
theorem monitorEntries_keys (ok : String → Bool) :
    ∀ (l : List (String × RelayEntry)) (n s : Nat),
      (monitorEntries ok l n s).1.map Prod.fst = l.map Prod.fst := by
  intro l
  induction l with
  | nil => intro n s; rfl
  | cons ke rest ih =>
    intro n s
    obtain ⟨k, e⟩ := ke
    unfold monitorEntries
    by_cases ha : e.alive
    · simp [ha, ih]
    · by_cases hm : MAX_RETRIES ≤ e.restart_count
      · simp [ha, hm, ih]
      · by_cases ho : ok k
        · simp [ha, hm, ho, ih]
        · simp [ha, hm, ho, ih]

/-- A dead tracked entry below the retry cap is restarted in place by a
monitor pass: same key, a fresh process, the restart counter bumped. -/
theorem monitorEntries_restart (ok : String → Bool) (k : String) (e : RelayEntry)
    (hdead : e.alive = false) (hrc : e.restart_count < MAX_RETRIES) (hok : ok k = true) :
    ∀ (l : List (String × RelayEntry)) (n s : Nat),
      l.find? (fun p => p.1 == k) = some (k, e) →
      ∃ p, (monitorEntries ok l n s).1.find? (fun p => p.1 == k) =
        some (k, { e with pid := p, alive := true, restart_count := e.restart_count + 1 }) := by
  intro l
  induction l with
  | nil => intro n s hf; simp at hf
  | cons ke rest ih =>
    intro n s hf
    obtain ⟨k', e'⟩ := ke
    by_cases hk : (k' == k) = true
    · rw [findKey_here k k' e' rest hk] at hf
      simp only [Option.some.injEq, Prod.mk.injEq] at hf
      obtain ⟨hk1, hk2⟩ := hf
      subst hk1
      subst hk2
      have hm : ¬ (MAX_RETRIES ≤ e'.restart_count) := by omega
      refine ⟨n, ?_⟩
      unfold monitorEntries
      rw [if_neg (by simp [hdead]), if_neg hm, if_pos hok]
      exact findKey_here _ _ _ _ hk
    · have hkb : (k' == k) = false := by simpa using hk
      rw [findKey_skip k k' e' rest hkb] at hf
      unfold monitorEntries
      by_cases ha : e'.alive = true
      · obtain ⟨p2, hp2⟩ := ih n s hf
        refine ⟨p2, ?_⟩
        rw [if_pos ha, findKey_skip k k' e' _ hkb]
        exact hp2
      · by_cases hm : MAX_RETRIES ≤ e'.restart_count
        · obtain ⟨p2, hp2⟩ := ih n s hf
          refine ⟨p2, ?_⟩
          rw [if_neg ha, if_pos hm, findKey_skip k k' e' _ hkb]
          exact hp2
        · by_cases ho : ok k' = true
          · obtain ⟨p2, hp2⟩ := ih (n + 1) (s + 1) hf
            refine ⟨p2, ?_⟩
            rw [if_neg ha, if_neg hm, if_pos ho, findKey_skip k k' _ _ hkb]
            exact hp2
          · obtain ⟨p2, hp2⟩ := ih n s hf
            refine ⟨p2, ?_⟩
            rw [if_neg ha, if_neg hm, if_neg ho, findKey_skip k k' e' _ hkb]
            exact hp2

/-- Looking up the key just written by a dict assignment yields the new
entry. -/
theorem relayAssign_find (l : List (String × RelayEntry)) (k : String) (e : RelayEntry) :
    (relayAssign l k e).find? (fun p => p.1 == k) = some (k, e) := by
  induction l with
  | nil =>
    simp [relayAssign, findKey_here]
  | cons ke rest ih =>
    obtain ⟨k', e'⟩ := ke
    by_cases hk : (k' == k) = true
    · have h1 : k' = k := by simpa using hk
      subst h1
      simp [relayAssign, findKey_here]
    · have hkb : (k' == k) = false := by simpa using hk
      rw [relayAssign]
      rw [if_neg (by simp [hkb])]
      rw [findKey_skip k k' e' _ hkb]
      exact ih

/-- C6: the relay manager never tracks two live subprocesses under one
key.  With no prior entry for the robot's keys, a first
`start_robot_camera_relay` (resp. `start_external_rtsp_relay`) spawns and
tracks one subprocess, and a second call while that process is alive
returns the same RTSP path with the state unchanged — no new subprocess,
no added entry; and a health-monitor pass never changes the key set: a
dead entry below the retry cap is given a fresh process in place, with its
restart counter bumped. -/
theorem relay_single_process_per_key (rid url : String) (st : RelayState)
    (hc : relayLookup st (rid ++ "/camera") = none)
    (hx : relayLookup st (rid ++ "/external") = none) :
    (start_robot_camera_relay rid (start_robot_camera_relay rid st).2.1 =
      ((start_robot_camera_relay rid st).1, (start_robot_camera_relay rid st).2.1, false)) ∧
    (start_external_rtsp_relay rid url (start_external_rtsp_relay rid url st).2.1 =
      ((start_external_rtsp_relay rid url st).1, (start_external_rtsp_relay rid url st).2.1, false)) ∧
    (∀ (ok : String → Bool) (st2 : RelayState),
      (monitorPass ok st2).relays.map Prod.fst = st2.relays.map Prod.fst) ∧
    (∀ (ok : String → Bool) (st2 : RelayState) (k : String) (e : RelayEntry),
      st2.relays.find? (fun p => p.1 == k) = some (k, e) →
      e.alive = false → e.restart_count < MAX_RETRIES → ok k = true →
      ∃ p, (monitorPass ok st2).relays.find? (fun p => p.1 == k) =
        some (k, { e with pid := p, alive := true, restart_count := e.restart_count + 1 })) := by
  refine ⟨?_, ?_, ?_, ?_⟩
  · have hf : st.relays.find? (fun p => p.1 == rid ++ "/camera") = none := by
      simpa [relayLookup, Option.map_eq_none'] using hc
    simp [start_robot_camera_relay, relayLookup, hf, relayAssign_find]
  · have hf : st.relays.find? (fun p => p.1 == rid ++ "/external") = none := by
      simpa [relayLookup, Option.map_eq_none'] using hx
    simp [start_external_rtsp_relay, relayLookup, hf, relayAssign_find]
  · intro ok st2
    simpa [monitorPass] using monitorEntries_keys ok st2.relays st2.nextPid st2.spawned
  · intro ok st2 k e hf hdead hrc hok
    obtain ⟨p, hp⟩ := monitorEntries_restart ok k e hdead hrc hok st2.relays st2.nextPid st2.spawned hf
    exact ⟨p, by simpa [monitorPass] using hp⟩

/-- Witness for C6 from an empty relay state. -/
theorem relay_single_process_per_key_witness :
    let st0 : RelayState := { relays := [], nextPid := 0, spawned := 0 }
    (start_robot_camera_relay "r1" (start_robot_camera_relay "r1" st0).2.1 =
      ((start_robot_camera_relay "r1" st0).1, (start_robot_camera_relay "r1" st0).2.1, false)) ∧
    (start_external_rtsp_relay "r1" "rtsp://cam" (start_external_rtsp_relay "r1" "rtsp://cam" st0).2.1 =
      ((start_external_rtsp_relay "r1" "rtsp://cam" st0).1,
       (start_external_rtsp_relay "r1" "rtsp://cam" st0).2.1, false)) ∧
    (∀ (ok : String → Bool) (st2 : RelayState),
      (monitorPass ok st2).relays.map Prod.fst = st2.relays.map Prod.fst) ∧
    (∀ (ok : String → Bool) (st2 : RelayState) (k : String) (e : RelayEntry),
      st2.relays.find? (fun p => p.1 == k) = some (k, e) →
      e.alive = false → e.restart_count < MAX_RETRIES → ok k = true →
      ∃ p, (monitorPass ok st2).relays.find? (fun p => p.1 == k) =
        some (k, { e with pid := p, alive := true, restart_count := e.restart_count + 1 })) :=
  relay_single_process_per_key "r1" "rtsp://cam" _ rfl rfl

/-- With no stop request every flag check sees the mission alive. -/
theorem flagAlive_none (env : PatrolEnv) (h : env.stopAfter = none) (c : Nat) :
    flagAlive env c = true := by
  simp [flagAlive, h]

/-- With no stop request the loop's events are the per-point
concatenation. -/
theorem loop_nostop_evs (env : PatrolEnv) (h : env.stopAfter = none) :
    ∀ (pts : List PatrolPoint) (i c : Nat),
      (patrolLoop env pts i c).evs = loopEvsN env pts i := by
  intro pts
  induction pts with
  | nil => intro i c; rfl
  | cons pt rest ih =>
    intro i c
    by_cases hmv : (env.moveResult i == "Success") = true
    · simp [patrolLoop, loopEvsN, pointEvs, flagAlive_none env h, hmv, ih]
    · simp [patrolLoop, loopEvsN, pointEvs, flagAlive_none env h, hmv, ih]

/-- With no stop request the queue is the per-point concatenation. -/
theorem loop_nostop_queue (env : PatrolEnv) (h : env.stopAfter = none) :
    ∀ (pts : List PatrolPoint) (i c : Nat),
      (patrolLoop env pts i c).queue = loopTasksN env pts i := by
  intro pts
  induction pts with
  | nil => intro i c; rfl
  | cons pt rest ih =>
    intro i c
    by_cases hmv : (env.moveResult i == "Success") = true
    · simp [patrolLoop, loopTasksN, pointTasks, flagAlive_none env h, hmv, ih]
    · simp [patrolLoop, loopTasksN, pointTasks, flagAlive_none env h, hmv, ih]

/-- With no stop request `inspections_data` is the per-point
concatenation. -/
theorem loop_nostop_data (env : PatrolEnv) (h : env.stopAfter = none) :
    ∀ (pts : List PatrolPoint) (i c : Nat),
      (patrolLoop env pts i c).data = loopDataN env pts i := by
  intro pts
  induction pts with
  | nil => intro i c; rfl
  | cons pt rest ih =>
    intro i c
    by_cases hmv : (env.moveResult i == "Success") = true
    · simp [patrolLoop, loopDataN, pointData, flagAlive_none env h, hmv, ih]
    · simp [patrolLoop, loopDataN, pointData, flagAlive_none env h, hmv, ih]

/-- C7: whatever happens inside the waypoint loop — normal completion,
early break on the stop flag, any pattern of per-point failures — the
mission thread always attempts to stop all relays, the live monitor
whenever it was started, and the video recorder whenever one was started,
and execution continues past the cleanup block (the token-total update
still runs).  The per-call `try/except` structure (modelled by
`cleanupEvents` being independent of any failure oracle) means a failure
of one stop is logged, not propagated, and cannot suppress the others. -/
theorem cleanup_always_runs (env : PatrolEnv)
    (hai : env.aiConfigured = true)
    (hpts : (enabledPoints env).isEmpty = false)
    (hrun : env.runInsertOk = true) :
    Ev.stopRelays ∈ patrolTrace env ∧
    (liveMonitorActive env = true → Ev.stopLiveMonitor ∈ patrolTrace env) ∧
    (env.settings.enable_video_recording = true → Ev.stopRecorder ∈ patrolTrace env) ∧
    Ev.updateTokens ∈ patrolTrace env := by
  refine ⟨?_, ?_, ?_, ?_⟩
  · simp [patrolTrace, hai, hpts, hrun, cleanupEvents]
  · intro hlm
    simp [patrolTrace, hai, hpts, hrun, cleanupEvents, hlm]
  · intro hvid
    simp [patrolTrace, hai, hpts, hrun, cleanupEvents, hvid]
  · simp [patrolTrace, hai, hpts, hrun]

/-- Witness for C7: a one-point mission stopped immediately, live monitor
and recorder both active, with the first stop failing. -/
theorem cleanup_always_runs_witness :
    let envW : PatrolEnv :=
      { points := [{ name := "A", x := 0, y := 0, prompt := "p", enabled := true }],
        settings :=
          { turbo_mode := true, enable_video_recording := true,
            enable_live_monitor := true, vila_jps_url := "http://jps",
            enable_robot_camera_relay := true, enable_external_rtsp := false,
            external_rtsp_url := "", live_monitor_rules := ["fire"],
            enable_telegram := false, system_prompt := "" },
        aiConfigured := true, runInsertOk := true, runId := 1,
        stopAfter := some 0,
        moveResult := fun _ => "Success", captureOk := fun _ => true,
        aiInspect := fun _ => .ok .noResponse, renameOk := fun _ => true,
        dbOk := fun _ => true, workerLoadOk := fun _ => true,
        robotRelayOk := true, extRelayOk := true,
        reportAI := .ok .noResponse, imgUuid := fun _ => "u" }
    Ev.stopRelays ∈ patrolTrace envW ∧
    (liveMonitorActive envW = true → Ev.stopLiveMonitor ∈ patrolTrace envW) ∧
    (envW.settings.enable_video_recording = true → Ev.stopRecorder ∈ patrolTrace envW) ∧
    Ev.updateTokens ∈ patrolTrace envW := by
  intro envW
  exact cleanup_always_runs envW rfl rfl rfl

/-- A mission environment that is fully configured (AI configured, one
enabled point) but whose `patrol_runs` INSERT fails. -/
def envDbFail : PatrolEnv :=
  { points := [{ name := "A", x := 0, y := 0, prompt := "p", enabled := true }],
    settings :=
      { turbo_mode := true, enable_video_recording := false,
        enable_live_monitor := false, vila_jps_url := "",
        enable_robot_camera_relay := false, enable_external_rtsp := false,
        external_rtsp_url := "", live_monitor_rules := [],
        enable_telegram := false, system_prompt := "" },
    aiConfigured := true, runInsertOk := false, runId := 1,
    stopAfter := none,
    moveResult := fun _ => "Success", captureOk := fun _ => true,
    aiInspect := fun _ => .ok .noResponse, renameOk := fun _ => true,
    dbOk := fun _ => true, workerLoadOk := fun _ => true,
    robotRelayOk := false, extRelayOk := false,
    reportAI := .ok .noResponse, imgUuid := fun _ => "u" }

/-- Counterexample to C8 as stated: with the AI configured and one enabled
point, a failing `patrol_runs` INSERT also aborts the mission before any
row exists — with status `"Error: Database Error"`, which is neither of
the two configuration errors the claim allows (`patrol_service.py` lines
313-326). -/
theorem db_error_also_fatal_before_row :
    patrolTrace envDbFail =
      [Ev.setStatus "Starting...", Ev.setStatus "Error: Database Error"] ∧
    envDbFail.aiConfigured = true ∧
    (enabledPoints envDbFail).isEmpty = false ∧
    (patrolTrace envDbFail).countP isInsertRun = 0 := by
  decide

/-- C8 (amended): exactly three conditions end the mission before a
`patrol_runs` row exists — AI not configured (status
`"Error: AI Not Configured"`), zero enabled points (status
`"No enabled points"`), and a failing `patrol_runs` INSERT itself (status
`"Error: Database Error"`); in every other configuration the run row is
created. -/
theorem mission_fatal_before_row_characterization (env : PatrolEnv) :
    (env.aiConfigured = false →
      patrolTrace env =
        [Ev.setStatus "Starting...", Ev.setStatus "Error: AI Not Configured"]) ∧
    (env.aiConfigured = true → (enabledPoints env).isEmpty = true →
      patrolTrace env =
        [Ev.setStatus "Starting...", Ev.setStatus "No enabled points"]) ∧
    (env.aiConfigured = true → (enabledPoints env).isEmpty = false →
      env.runInsertOk = false →
      patrolTrace env =
        [Ev.setStatus "Starting...", Ev.setStatus "Error: Database Error"]) ∧
    (env.aiConfigured = true → (enabledPoints env).isEmpty = false →
      env.runInsertOk = true →
      Ev.insertRun env.runId ∈ patrolTrace env) := by
  refine ⟨?_, ?_, ?_, ?_⟩
  · intro h
    simp [patrolTrace, h]
  · intro h1 h2
    simp [patrolTrace, h1, h2]
  · intro h1 h2 h3
    simp [patrolTrace, h1, h2, h3]
  · intro h1 h2 h3
    simp [patrolTrace, h1, h2, h3]

/-- Witness for the amended C8: the DB-failure abort at `envDbFail` and
row creation at the same environment with a working INSERT. -/
theorem mission_fatal_before_row_characterization_witness :
    patrolTrace envDbFail =
      [Ev.setStatus "Starting...", Ev.setStatus "Error: Database Error"] ∧
    Ev.insertRun 1 ∈ patrolTrace { envDbFail with runInsertOk := true } := by
  constructor
  · exact (mission_fatal_before_row_characterization envDbFail).2.2.1 rfl rfl rfl
  · exact (mission_fatal_before_row_characterization
      { envDbFail with runInsertOk := true }).2.2.2 rfl rfl rfl

/-- Events that neither create/update the `patrol_runs` row nor generate a
report/notification nor mark the join barrier. -/
def plainEv : Ev → Bool
  | .setStatus _ => true
  | .moveTo _ => true
  | .capture _ => true
  | .aiCall _ => true
  | .enqueue _ => true
  | .insertRow _ _ => true
  | .returnHome => true
  | .videoAnalysis => true
  | .stopLiveMonitor => true
  | .stopRelays => true
  | .stopRecorder => true
  | _ => false

/-- Plain events leave the run record unchanged. -/
theorem applyEv_plain (r : RunRecord) (e : Ev) (h : plainEv e = true) :
    applyEv r e = r := by
  cases e <;> simp_all [plainEv, applyEv]

/-- Folding the run record over plain events is the identity. -/
theorem all_foldl_applyEv (l : List Ev) (h : l.all plainEv = true) :
    ∀ r : RunRecord, l.foldl applyEv r = r := by
  induction l with
  | nil => intro r; rfl
  | cons e rest ih =>
    intro r
    rw [List.all_cons, Bool.and_eq_true] at h
    rw [List.foldl_cons, applyEv_plain r e h.1]
    exact ih h.2 r

/-- Plain lists contain no event satisfying a predicate that plain events
falsify. -/
theorem countP_zero_of_plain (p : Ev → Bool)
    (hp : ∀ e, plainEv e = true → p e = false) :
    ∀ l : List Ev, l.all plainEv = true → l.countP p = 0 := by
  intro l hl
  rw [List.countP_eq_zero]
  intro e he
  have := (List.all_eq_true.mp hl) e he
  simp [hp e this]

/-- The events of `_inspect_point` are plain. -/
theorem inspectPoint_plain (env : PatrolEnv) (i : Nat) (pt : PatrolPoint) :
    ((inspectPoint env i pt).1).all plainEv = true := by
  by_cases hc : env.captureOk i = true
  · by_cases ht : env.settings.turbo_mode = true
    · simp [inspectPoint, hc, ht, plainEv]
    · rcases hai : env.aiInspect i with resp | msg
      · by_cases hdb : env.dbOk i = true <;>
          simp [inspectPoint, hc, ht, hai, hdb, plainEv]
      · simp [inspectPoint, hc, ht, hai, plainEv]
  · simp [inspectPoint, hc, plainEv]

/-- The loop emits only plain events, whatever the stop behaviour. -/
theorem patrolLoop_plain (env : PatrolEnv) :
    ∀ (pts : List PatrolPoint) (i c : Nat),
      ((patrolLoop env pts i c).evs).all plainEv = true := by
  intro pts
  induction pts with
  | nil => intro i c; rfl
  | cons pt rest ih =>
    intro i c
    by_cases hf : flagAlive env c = true
    · by_cases hmv : (env.moveResult i == "Success") = true
      · by_cases hf2 : flagAlive env (c + 1) = true
        · simp [patrolLoop, hf, hmv, hf2, plainEv, inspectPoint_plain, ih]
        · simp [patrolLoop, hf, hmv, hf2, plainEv]
      · by_cases hdb : env.dbOk i = true <;>
          simp [patrolLoop, hf, hmv, hdb, plainEv, ih]
    · simp [patrolLoop, hf]

/-- Cleanup events are plain. -/
theorem cleanupEvents_plain (env : PatrolEnv) :
    (cleanupEvents env).all plainEv = true := by
  by_cases hlm : liveMonitorActive env = true <;>
    by_cases hv : env.settings.enable_video_recording = true <;>
      simp [cleanupEvents, hlm, hv, plainEv]

/-- C9: if the stop flag is down at the final `was_patrolling` check (a
`stop_patrol` mid-mission), the mission's `patrol_runs` row ends with
status `"Patrol Stopped"` and a set `end_time`, no report is generated and
no Telegram notification is sent, so `report_content` stays empty. -/
theorem stop_finalizes_without_report (env : PatrolEnv)
    (hai : env.aiConfigured = true)
    (hpts : (enabledPoints env).isEmpty = false)
    (hrun : env.runInsertOk = true)
    (hstopped : flagAlive env (patrolLoop env (enabledPoints env) 0 0).clock = false) :
    runRecord (patrolTrace env) =
      { created := true, status := "Patrol Stopped", endTimeSet := true,
        report_content := none } ∧
    (patrolTrace env).countP isReportGen = 0 ∧
    (patrolTrace env).countP isSendTelegram = 0 := by
  have htr : patrolTrace env =
      [Ev.setStatus "Starting...", Ev.insertRun env.runId] ++
        ((if env.settings.enable_video_recording then
            [Ev.setStatus "Starting Video Recording..."] else []) ++
          ((patrolLoop env (enabledPoints env) 0 0).evs ++
            (cleanupEvents env ++
              ([Ev.updateRunEnd "Patrol Stopped"] ++
                [Ev.updateTokens, Ev.clearRun])))) := by
    simp [patrolTrace, finalizeEvents, hai, hpts, hrun, hstopped]
  have hrep : ∀ e, plainEv e = true → isReportGen e = false := by
    intro e h
    cases e <;> simp_all [plainEv, isReportGen]
  have htg : ∀ e, plainEv e = true → isSendTelegram e = false := by
    intro e h
    cases e <;> simp_all [plainEv, isSendTelegram]
  refine ⟨?_, ?_, ?_⟩
  · rw [htr]
    unfold runRecord
    by_cases hv : env.settings.enable_video_recording = true <;>
      simp [hv, List.foldl_append, applyEv,
        all_foldl_applyEv _ (patrolLoop_plain env (enabledPoints env) 0 0),
        all_foldl_applyEv _ (cleanupEvents_plain env)]
  · rw [htr]
    by_cases hv : env.settings.enable_video_recording = true <;>
      simp [hv, List.countP_append, isReportGen,
        countP_zero_of_plain _ hrep _ (patrolLoop_plain env (enabledPoints env) 0 0),
        countP_zero_of_plain _ hrep _ (cleanupEvents_plain env)]
  · rw [htr]
    by_cases hv : env.settings.enable_video_recording = true <;>
      simp [hv, List.countP_append, isSendTelegram,
        countP_zero_of_plain _ htg _ (patrolLoop_plain env (enabledPoints env) 0 0),
        countP_zero_of_plain _ htg _ (cleanupEvents_plain env)]

/-- A fully configured two-point turbo mission stopped before the first
waypoint check. -/
def envStopped : PatrolEnv :=
  { envDbFail with runInsertOk := true, stopAfter := some 0 }

/-- Witness for C9 at `envStopped`. -/
theorem stop_finalizes_without_report_witness :
    runRecord (patrolTrace envStopped) =
      { created := true, status := "Patrol Stopped", endTimeSet := true,
        report_content := none } ∧
    (patrolTrace envStopped).countP isReportGen = 0 ∧
    (patrolTrace envStopped).countP isSendTelegram = 0 :=
  stop_finalizes_without_report envStopped rfl rfl rfl (by decide)

/-- A turbo-mode mission whose single point's move succeeds but whose
camera capture fails. -/
def envCaptureFail : PatrolEnv :=
  { envDbFail with runInsertOk := true, captureOk := fun _ => false }

/-- Counterexample to C1 as stated: turbo mode, no stop, one enabled point
whose move succeeds (`M = 1`), but the capture call returns nothing
(`_inspect_point` line 572 returns with no row and no queue entry) — the
mission reaches `Finished` with zero success/AI-error rows, not `M`. -/
theorem turbo_rows_counterexample :
    envCaptureFail.settings.turbo_mode = true ∧
    envCaptureFail.stopAfter = none ∧
    (enabledPoints envCaptureFail).length = 1 ∧
    movesSucceeded envCaptureFail = 1 ∧
    (patrolTrace envCaptureFail).countP isSuccessRow = 0 ∧
    Ev.setStatus "Finished" ∈ patrolTrace envCaptureFail := by
  decide

/-- In turbo mode the loop itself never writes a row with move status
`"Success"` (only move-failure rows). -/
theorem loopEvsN_no_successRow (env : PatrolEnv)
    (hturbo : env.settings.turbo_mode = true) :
    ∀ (pts : List PatrolPoint) (i : Nat),
      (loopEvsN env pts i).countP isSuccessRow = 0 := by
  intro pts
  induction pts with
  | nil => intro i; rfl
  | cons pt rest ih =>
    intro i
    rw [loopEvsN, List.countP_append, ih (i + 1)]
    by_cases hmv : (env.moveResult i == "Success") = true
    · by_cases hc : env.captureOk i = true <;>
        simp [pointEvs, inspectPoint, hmv, hc, hturbo, isSuccessRow]
    · by_cases hdb : env.dbOk i = true <;>
        simp [pointEvs, hmv, hdb, isSuccessRow, save_inspection,
          Bool.not_eq_true _ ▸ hmv]

/-- In turbo mode the queued task indices are exactly the enabled-list
positions with a successful move and a successful capture. -/
theorem loopTasksN_map_idx (env : PatrolEnv)
    (hturbo : env.settings.turbo_mode = true) :
    ∀ (pts : List PatrolPoint) (i : Nat),
      (loopTasksN env pts i).map (fun t => t.idx) =
        (List.range' i pts.length).filter
          (fun j => env.moveResult j == "Success" && env.captureOk j) := by
  intro pts
  induction pts with
  | nil => intro i; rfl
  | cons pt rest ih =>
    intro i
    rw [loopTasksN, List.map_append, ih (i + 1), List.length_cons,
      List.range'_succ, List.filter_cons]
    by_cases hmv : (env.moveResult i == "Success") = true
    · by_cases hc : env.captureOk i = true <;>
        simp [pointTasks, inspectPoint, hmv, hc, hturbo]
    · simp [pointTasks, hmv]

/-- The worker rows produced at the join barrier: one `"Success"`-status
row per queued task whose image load succeeds (DB writes succeeding). -/
theorem drainQueue_successRow_count (env : PatrolEnv)
    (hdb : ∀ j, env.dbOk j = true) :
    ∀ tasks : List WorkerTask,
      ((drainQueue env tasks).1).countP isSuccessRow =
        (tasks.map (fun t => t.idx)).countP (fun j => env.workerLoadOk j) := by
  intro tasks
  induction tasks with
  | nil => rfl
  | cons t rest ih =>
    by_cases hl : env.workerLoadOk t.idx = true <;>
      simp [drainQueue, inspection_worker_step, workerOracleAt, hl, hdb t.idx,
        List.countP_cons, isSuccessRow, save_inspection, ih]

/-- Drained worker events are plain (AI calls and row inserts only). -/
theorem drainQueue_plain (env : PatrolEnv) :
    ∀ tasks : List WorkerTask, ((drainQueue env tasks).1).all plainEv = true := by
  intro tasks
  induction tasks with
  | nil => rfl
  | cons t rest ih =>
    by_cases hl : env.workerLoadOk t.idx = true <;>
      by_cases hdb : env.dbOk t.idx = true <;>
        simp [drainQueue, inspection_worker_step, workerOracleAt, hl, hdb,
          plainEv, ih]

/-- Plain events are never report-content writes. -/
theorem plain_no_reportGen (e : Ev) (h : plainEv e = true) : isReportGen e = false := by
  cases e <;> simp_all [plainEv, isReportGen]

/-- One waypoint iteration emits only plain events. -/
theorem pointEvs_plain (env : PatrolEnv) (i : Nat) (pt : PatrolPoint) :
    (pointEvs env i pt).all plainEv = true := by
  by_cases hmv : (env.moveResult i == "Success") = true
  · simp [pointEvs, hmv, plainEv, inspectPoint_plain]
  · by_cases hdb : env.dbOk i = true <;>
      simp [pointEvs, hmv, hdb, plainEv]

/-- The no-stop loop emits only plain events. -/
theorem loopEvsN_plain (env : PatrolEnv) :
    ∀ (pts : List PatrolPoint) (i : Nat), (loopEvsN env pts i).all plainEv = true := by
  intro pts
  induction pts with
  | nil => intro i; rfl
  | cons pt rest ih =>
    intro i
    rw [loopEvsN, List.all_append]
    simp [pointEvs_plain, ih]

/-- Report-phase events never include inspection-row inserts. -/
theorem reportEvents_no_insertRow (env : PatrolEnv) (insp : List (String × String)) :
    (reportEvents env insp).countP isInsertRow = 0 := by
  by_cases hi : insp.isEmpty = true
  · simp [reportEvents, hi]
  · rcases hr : env.reportAI with resp | msg
    · by_cases ht : env.settings.enable_telegram = true <;>
        simp [reportEvents, hi, hr, ht, isInsertRow]
    · simp [reportEvents, hi, hr]

/-- Report-phase events never include success-status rows. -/
theorem reportEvents_no_successRow (env : PatrolEnv) (insp : List (String × String)) :
    (reportEvents env insp).countP isSuccessRow = 0 := by
  by_cases hi : insp.isEmpty = true
  · simp [reportEvents, hi]
  · rcases hr : env.reportAI with resp | msg
    · by_cases ht : env.settings.enable_telegram = true <;>
        simp [reportEvents, hi, hr, ht, isSuccessRow]
    · simp [reportEvents, hi, hr]

/-- Cleanup events contain no row inserts. -/
theorem cleanupEvents_no_successRow (env : PatrolEnv) :
    (cleanupEvents env).countP isSuccessRow = 0 := by
  by_cases hlm : liveMonitorActive env = true <;>
    by_cases hv : env.settings.enable_video_recording = true <;>
      simp [cleanupEvents, hlm, hv, isSuccessRow]

/-- C1 (amended): for a turbo mission that is never stopped (with the DB
accepting all row writes), the number of success/AI-error rows written for
the run equals the number of enabled points whose move succeeded AND whose
capture and worker image load succeeded — not the number of successful
moves alone; the mission reaches `Finished`; and the trace splits at the
`queue.join()` barrier: every inspection-row insert happens before the
split and every report write after it, so the report step cannot run
before all queued inspections are processed. -/
theorem turbo_completeness_amended (env : PatrolEnv)
    (hai : env.aiConfigured = true)
    (hpts : (enabledPoints env).isEmpty = false)
    (hrun : env.runInsertOk = true)
    (hstop : env.stopAfter = none)
    (hturbo : env.settings.turbo_mode = true)
    (hdb : ∀ j, env.dbOk j = true) :
    (patrolTrace env).countP isSuccessRow =
      ((List.range (enabledPoints env).length).filter
          (fun j => env.moveResult j == "Success" && env.captureOk j)).countP
        (fun j => env.workerLoadOk j) ∧
    Ev.setStatus "Finished" ∈ patrolTrace env ∧
    (∃ pre post, patrolTrace env = pre ++ post ∧ Ev.queueJoin ∈ pre ∧
      post.countP isInsertRow = 0 ∧ pre.countP isReportGen = 0) := by
  have htr : patrolTrace env =
      ([Ev.setStatus "Starting...", Ev.insertRun env.runId] ++
        (if env.settings.enable_video_recording then
          [Ev.setStatus "Starting Video Recording..."] else []) ++
        loopEvsN env (enabledPoints env) 0 ++
        cleanupEvents env ++
        [Ev.setStatus "Returning Home...", Ev.returnHome,
         Ev.setStatus "Processing Images...", Ev.queueJoin] ++
        (drainQueue env (loopTasksN env (enabledPoints env) 0)).1) ++
      ((if env.settings.enable_video_recording then
          [Ev.setStatus "Analyzing Video...", Ev.videoAnalysis] else []) ++
        [Ev.updateRunEnd "Completed", Ev.setStatus "Generating Report..."] ++
        reportEvents env
          (loopDataN env (enabledPoints env) 0 ++
            (drainQueue env (loopTasksN env (enabledPoints env) 0)).2) ++
        [Ev.setStatus "Finished", Ev.updateTokens, Ev.clearRun]) := by
    simp [patrolTrace, finalizeEvents, hai, hpts, hrun, hturbo,
      flagAlive_none env hstop, loop_nostop_evs env hstop,
      loop_nostop_queue env hstop, loop_nostop_data env hstop]
  refine ⟨?_, ?_, ?_⟩
  · rw [htr]
    rw [List.countP_append]
    have hdrain := drainQueue_successRow_count env hdb
      (loopTasksN env (enabledPoints env) 0)
    rw [loopTasksN_map_idx env hturbo (enabledPoints env) 0] at hdrain
    by_cases hv : env.settings.enable_video_recording = true <;>
      simp [hv, List.countP_append, isSuccessRow,
        loopEvsN_no_successRow env hturbo, cleanupEvents_no_successRow,
        reportEvents_no_successRow, hdrain, List.range_eq_range']
  · rw [htr]
    simp
  · refine ⟨_, _, htr, ?_, ?_, ?_⟩
    · simp
    · by_cases hv : env.settings.enable_video_recording = true <;>
        simp [hv, List.countP_append, isInsertRow, reportEvents_no_insertRow]
    · by_cases hv : env.settings.enable_video_recording = true <;>
        simp [hv, List.countP_append, isReportGen,
          countP_zero_of_plain _ plain_no_reportGen _
            (loopEvsN_plain env (enabledPoints env) 0),
          countP_zero_of_plain _ plain_no_reportGen _ (cleanupEvents_plain env),
          countP_zero_of_plain _ plain_no_reportGen _
            (drainQueue_plain env (loopTasksN env (enabledPoints env) 0))]

/-- Witness for the amended C1 at `envCaptureFail` (move succeeds,
capture fails: zero rows, `Finished` reached, barrier in place). -/
theorem turbo_completeness_amended_witness :
    (patrolTrace envCaptureFail).countP isSuccessRow =
      ((List.range (enabledPoints envCaptureFail).length).filter
          (fun j => envCaptureFail.moveResult j == "Success" && envCaptureFail.captureOk j)).countP
        (fun j => envCaptureFail.workerLoadOk j) ∧
    Ev.setStatus "Finished" ∈ patrolTrace envCaptureFail ∧
    (∃ pre post, patrolTrace envCaptureFail = pre ++ post ∧ Ev.queueJoin ∈ pre ∧
      post.countP isInsertRow = 0 ∧ pre.countP isReportGen = 0) :=
  turbo_completeness_amended envCaptureFail rfl rfl rfl rfl rfl (fun _ => rfl)

/-- A waypoint iteration at position `j` emits no event indexed `i ≠ j`. -/
theorem pointEvs_touches_other (env : PatrolEnv) (j i : Nat) (pt : PatrolPoint)
    (h : j ≠ i) : (pointEvs env j pt).filter (touchesIdx i) = [] := by
  have hb : (j == i) = false := by simpa using h
  by_cases hmv : (env.moveResult j == "Success") = true
  · by_cases hc : env.captureOk j = true
    · by_cases ht : env.settings.turbo_mode = true
      · simp [pointEvs, inspectPoint, hmv, hc, ht, touchesIdx, hb]
      · rcases hai : env.aiInspect j with resp | msg
        · by_cases hdb : env.dbOk j = true <;>
            simp [pointEvs, inspectPoint, hmv, hc, ht, hai, hdb, touchesIdx, hb]
        · simp [pointEvs, inspectPoint, hmv, hc, ht, hai, touchesIdx, hb]
    · simp [pointEvs, inspectPoint, hmv, hc, touchesIdx, hb]
  · by_cases hdb : env.dbOk j = true <;>
      simp [pointEvs, hmv, hdb, touchesIdx, hb]

/-- The loop over positions `≥ i0` emits no event indexed `i < i0`. -/
theorem loopEvsN_touches_low (env : PatrolEnv) :
    ∀ (pts : List PatrolPoint) (i0 i : Nat), i < i0 →
      (loopEvsN env pts i0).filter (touchesIdx i) = [] := by
  intro pts
  induction pts with
  | nil => intro i0 i h; rfl
  | cons pt rest ih =>
    intro i0 i h
    rw [loopEvsN, List.filter_append, pointEvs_touches_other env i0 i pt (by omega),
      ih (i0 + 1) i (by omega)]
    rfl

/-- Events indexed `i0 + j` in the loop come exactly from the iteration of
the point at position `j`. -/
theorem loopEvsN_touches_at (env : PatrolEnv) :
    ∀ (pts : List PatrolPoint) (i0 j : Nat) (hj : j < pts.length),
      (loopEvsN env pts i0).filter (touchesIdx (i0 + j)) =
        (pointEvs env (i0 + j) (pts.get ⟨j, hj⟩)).filter (touchesIdx (i0 + j)) := by
  intro pts
  induction pts with
  | nil => intro i0 j hj; simp at hj
  | cons pt rest ih =>
    intro i0 j hj
    rw [loopEvsN, List.filter_append]
    cases j with
    | zero =>
      rw [loopEvsN_touches_low env rest (i0 + 1) (i0 + 0) (by omega)]
      simp [List.get]
    | succ j' =>
      rw [pointEvs_touches_other env i0 (i0 + (j' + 1)) pt (by omega)]
      have hj' : j' < rest.length := by simpa using hj
      have hrw : i0 + (j' + 1) = (i0 + 1) + j' := by omega
      rw [hrw, ih (i0 + 1) j' hj']
      simp [List.get]

/-- Every queued task comes from a point whose move succeeded. -/
theorem loopTasksN_idx_success (env : PatrolEnv) :
    ∀ (pts : List PatrolPoint) (i0 : Nat) (t : WorkerTask),
      t ∈ loopTasksN env pts i0 → (env.moveResult t.idx == "Success") = true := by
  intro pts
  induction pts with
  | nil => intro i0 t ht; simp [loopTasksN] at ht
  | cons pt rest ih =>
    intro i0 t ht
    rw [loopTasksN, List.mem_append] at ht
    rcases ht with h | h
    · by_cases hmv : (env.moveResult i0 == "Success") = true
      · by_cases hc : env.captureOk i0 = true
        · by_cases htb : env.settings.turbo_mode = true
          · simp [pointTasks, inspectPoint, hmv, hc, htb] at h
            rw [h]
            exact hmv
          · rcases hairesp : env.aiInspect i0 with resp | msg <;>
              simp [pointTasks, inspectPoint, hmv, hc, htb, hairesp] at h
        · simp [pointTasks, inspectPoint, hmv, hc] at h
      · simp [pointTasks, hmv] at h
    · exact ih (i0 + 1) t h

/-- The drained worker events touch no index that was never enqueued. -/
theorem drainQueue_touches_none (env : PatrolEnv) (i : Nat) :
    ∀ tasks : List WorkerTask, (∀ t ∈ tasks, (t.idx == i) = false) →
      ((drainQueue env tasks).1).filter (touchesIdx i) = [] := by
  intro tasks
  induction tasks with
  | nil => intro h; rfl
  | cons t rest ih =>
    intro h
    have ht := h t (by simp)
    have hrest := fun t' ht' => h t' (List.mem_cons_of_mem _ ht')
    by_cases hl : env.workerLoadOk t.idx = true <;>
      by_cases hdb : env.dbOk t.idx = true <;>
        simp [drainQueue, inspection_worker_step, workerOracleAt, hl, hdb,
          touchesIdx, ht, ih hrest]

/-- With no stop, each position's move is attempted. -/
theorem loopEvsN_moveTo_mem (env : PatrolEnv) :
    ∀ (pts : List PatrolPoint) (i0 j : Nat), j < pts.length →
      Ev.moveTo (i0 + j) ∈ loopEvsN env pts i0 := by
  intro pts
  induction pts with
  | nil => intro i0 j h; simp at h
  | cons pt rest ih =>
    intro i0 j hj
    cases j with
    | zero =>
      simp [loopEvsN, pointEvs]
    | succ j' =>
      have hj' : j' < rest.length := by simpa using hj
      have := ih (i0 + 1) j' hj'
      rw [loopEvsN, List.mem_append]
      right
      rw [show i0 + (j' + 1) = (i0 + 1) + j' by omega]
      exact this

/-- Cleanup events carry no point index. -/
theorem cleanupEvents_touches (env : PatrolEnv) (i : Nat) :
    (cleanupEvents env).filter (touchesIdx i) = [] := by
  by_cases hlm : liveMonitorActive env = true <;>
    by_cases hv : env.settings.enable_video_recording = true <;>
      simp [cleanupEvents, hlm, hv, touchesIdx]

/-- Report-phase events carry no point index. -/
theorem reportEvents_touches (env : PatrolEnv) (insp : List (String × String)) (i : Nat) :
    (reportEvents env insp).filter (touchesIdx i) = [] := by
  by_cases hi : insp.isEmpty = true
  · simp [reportEvents, hi]
  · rcases hr : env.reportAI with resp | msg
    · by_cases ht : env.settings.enable_telegram = true <;>
        simp [reportEvents, hi, hr, ht, touchesIdx]
    · simp [reportEvents, hi, hr]

/-- Restricting a filter to a subpredicate factors through the larger
filter. -/
theorem filter_sub (p q : Ev → Bool) (h : ∀ e, p e = true → q e = true) :
    ∀ l : List Ev, l.filter p = (l.filter q).filter p := by
  intro l
  induction l with
  | nil => rfl
  | cons e rest ih =>
    by_cases hp : p e = true
    · have hq := h e hp
      simp [List.filter_cons, hp, hq, ih]
    · by_cases hq : q e = true <;> simp [List.filter_cons, hp, hq, ih]

set_option maxHeartbeats 2000000 in
/-- C4: for a waypoint whose move fails (no stop requested, DB accepting
the write), no capture and no AI call happens for that point, exactly one
row is written for it — NG flag set, the move's error string as its
description and as the stored move status, an empty image path — and the
mission goes on to move to the next point. -/
theorem move_failure_short_circuit (env : PatrolEnv) (i : Nat)
    (hai : env.aiConfigured = true)
    (hpts : (enabledPoints env).isEmpty = false)
    (hrun : env.runInsertOk = true)
    (hstop : env.stopAfter = none)
    (hdbi : env.dbOk i = true)
    (hi : i < (enabledPoints env).length)
    (hmv : (env.moveResult i == "Success") = false) :
    (patrolTrace env).filter (isRowFor i) =
      [Ev.insertRow i (save_inspection env.runId ((enabledPoints env).get ⟨i, hi⟩)
        ((enabledPoints env).get ⟨i, hi⟩).name "" (moveFailParsed (env.moveResult i)) ""
        (env.moveResult i))] ∧
    (∀ r : InspRow, Ev.insertRow i r ∈ patrolTrace env →
      r.is_ng = 1 ∧ r.ai_description = env.moveResult i ∧ r.image_path = "" ∧
      r.robot_moving_status = env.moveResult i) ∧
    (patrolTrace env).countP (isCaptureFor i) = 0 ∧
    (patrolTrace env).countP (isAiCallFor i) = 0 ∧
    (i + 1 < (enabledPoints env).length → Ev.moveTo (i + 1) ∈ patrolTrace env) := by
  have htr : patrolTrace env =
      [Ev.setStatus "Starting...", Ev.insertRun env.runId] ++
        (if env.settings.enable_video_recording then
          [Ev.setStatus "Starting Video Recording..."] else []) ++
        loopEvsN env (enabledPoints env) 0 ++
        cleanupEvents env ++
        [Ev.setStatus "Returning Home...", Ev.returnHome] ++
        (if env.settings.turbo_mode then
          [Ev.setStatus "Processing Images...", Ev.queueJoin] ++
            (drainQueue env (loopTasksN env (enabledPoints env) 0)).1
         else []) ++
        (if env.settings.enable_video_recording then
          [Ev.setStatus "Analyzing Video...", Ev.videoAnalysis] else []) ++
        [Ev.updateRunEnd "Completed", Ev.setStatus "Generating Report..."] ++
        reportEvents env
          (loopDataN env (enabledPoints env) 0 ++
            (if env.settings.turbo_mode then
              (drainQueue env (loopTasksN env (enabledPoints env) 0)).2 else [])) ++
        [Ev.setStatus "Finished", Ev.updateTokens, Ev.clearRun] := by
    simp [patrolTrace, finalizeEvents, hai, hpts, hrun,
      flagAlive_none env hstop, loop_nostop_evs env hstop,
      loop_nostop_queue env hstop, loop_nostop_data env hstop]
  have hne : ∀ t ∈ loopTasksN env (enabledPoints env) 0, (t.idx == i) = false := by
    intro t htt
    have hsucc := loopTasksN_idx_success env (enabledPoints env) 0 t htt
    by_contra hcon
    have hidx : t.idx = i := by simpa using hcon
    rw [hidx] at hsucc
    simp [hsucc] at hmv
  have hdr := drainQueue_touches_none env i (loopTasksN env (enabledPoints env) 0) hne
  have hpe : (pointEvs env i ((enabledPoints env).get ⟨i, hi⟩)).filter (touchesIdx i) =
      [Ev.moveTo i, Ev.insertRow i (save_inspection env.runId ((enabledPoints env).get ⟨i, hi⟩)
        ((enabledPoints env).get ⟨i, hi⟩).name "" (moveFailParsed (env.moveResult i)) ""
        (env.moveResult i))] := by
    simp [pointEvs, hmv, hdbi, touchesIdx]
  have hloop : (loopEvsN env (enabledPoints env) 0).filter (touchesIdx i) =
      [Ev.moveTo i, Ev.insertRow i (save_inspection env.runId ((enabledPoints env).get ⟨i, hi⟩)
        ((enabledPoints env).get ⟨i, hi⟩).name "" (moveFailParsed (env.moveResult i)) ""
        (env.moveResult i))] := by
    have h0 := loopEvsN_touches_at env (enabledPoints env) 0 i hi
    simpa using h0.trans (by simpa using hpe)
  have hmaster : (patrolTrace env).filter (touchesIdx i) =
      [Ev.moveTo i, Ev.insertRow i (save_inspection env.runId ((enabledPoints env).get ⟨i, hi⟩)
        ((enabledPoints env).get ⟨i, hi⟩).name "" (moveFailParsed (env.moveResult i)) ""
        (env.moveResult i))] := by
    rw [htr]
    by_cases ht : env.settings.turbo_mode = true <;>
      by_cases hv : env.settings.enable_video_recording = true <;>
        simp [ht, hv, List.filter_append, touchesIdx, hloop, hdr,
          cleanupEvents_touches, reportEvents_touches]
  have hrowsub : ∀ e, isRowFor i e = true → touchesIdx i e = true := by
    intro e h
    cases e <;> simp_all [isRowFor, touchesIdx]
  have hcapsub : ∀ e, isCaptureFor i e = true → touchesIdx i e = true := by
    intro e h
    cases e <;> simp_all [isCaptureFor, touchesIdx]
  have haisub : ∀ e, isAiCallFor i e = true → touchesIdx i e = true := by
    intro e h
    cases e <;> simp_all [isAiCallFor, touchesIdx]
  have hrows : (patrolTrace env).filter (isRowFor i) =
      [Ev.insertRow i (save_inspection env.runId ((enabledPoints env).get ⟨i, hi⟩)
        ((enabledPoints env).get ⟨i, hi⟩).name "" (moveFailParsed (env.moveResult i)) ""
        (env.moveResult i))] := by
    rw [filter_sub (isRowFor i) (touchesIdx i) hrowsub, hmaster]
    simp [isRowFor]
  refine ⟨hrows, ?_, ?_, ?_, ?_⟩
  · intro r hr
    have hmem : Ev.insertRow i r ∈ (patrolTrace env).filter (isRowFor i) := by
      rw [List.mem_filter]
      exact ⟨hr, by simp [isRowFor]⟩
    rw [hrows] at hmem
    simp only [List.mem_singleton, Ev.insertRow.injEq] at hmem
    rw [hmem.2]
    refine ⟨?_, ?_, ?_, ?_⟩ <;>
      simp [save_inspection, moveFailParsed, relImagePath]
  · rw [List.countP_eq_length_filter,
      filter_sub (isCaptureFor i) (touchesIdx i) hcapsub, hmaster]
    simp [isCaptureFor]
  · rw [List.countP_eq_length_filter,
      filter_sub (isAiCallFor i) (touchesIdx i) haisub, hmaster]
    simp [isAiCallFor]
  · intro hlt
    have hmem := loopEvsN_moveTo_mem env (enabledPoints env) 0 (i + 1) hlt
    simp only [Nat.zero_add] at hmem
    rw [htr]
    simp [List.mem_append, hmem]

/-- A two-point turbo mission whose every move fails with `"Error: 5"`. -/
def envMoveFail : PatrolEnv :=
  { envDbFail with
      runInsertOk := true,
      points := [{ name := "A", x := 0, y := 0, prompt := "p", enabled := true },
                 { name := "B", x := 1, y := 1, prompt := "q", enabled := true }],
      moveResult := fun _ => "Error: 5" }

/-- Witness for C4 at `envMoveFail`, point 0. -/
theorem move_failure_short_circuit_witness :
    (∀ r : InspRow, Ev.insertRow 0 r ∈ patrolTrace envMoveFail →
      r.is_ng = 1 ∧ r.ai_description = envMoveFail.moveResult 0 ∧ r.image_path = "" ∧
      r.robot_moving_status = envMoveFail.moveResult 0) ∧
    (patrolTrace envMoveFail).countP (isCaptureFor 0) = 0 ∧
    (patrolTrace envMoveFail).countP (isAiCallFor 0) = 0 ∧
    Ev.moveTo 1 ∈ patrolTrace envMoveFail := by
  have h := move_failure_short_circuit envMoveFail 0 rfl rfl rfl rfl rfl
    (by decide) (by decide)
  exact ⟨h.2.1, h.2.2.1, h.2.2.2.1, h.2.2.2.2 (by decide)⟩
